import Mathlib

/-!
Verification of the Yieldera DataHub service against its natural-language
specification.  The Python source (dataset extractors, request cache, job
store/executor, comparison engine, date-range validation) is shallowly
embedded below: numeric values are rationals, machine dictionaries become
structures, the external Earth-Engine backend is an explicit input (a list of
features, or a per-day oracle), and fallible code returns `Except`/`Option`.
-/

namespace Datahub

/-! ### Python `round(x, 2)` (banker's rounding, two decimals) -/

/-- Round a rational to the nearest integer, ties to even, matching Python's
built-in `round`. -/
def roundHalfEven (q : ℚ) : ℤ :=
  let n := ⌊q⌋
  let f := q - n
  if f < 1/2 then n
  else if 1/2 < f then n + 1
  else if n % 2 = 0 then n else n + 1

/-- Python's `round(x, 2)`. -/
def pyRound2 (q : ℚ) : ℚ := (roundHalfEven (100 * q) : ℚ) / 100

theorem roundHalfEven_intCast (z : ℤ) : roundHalfEven (z : ℚ) = z := by
  simp [roundHalfEven]

theorem pyRound2_div100 (z : ℤ) : pyRound2 ((z : ℚ) / 100) = (z : ℚ) / 100 := by
  have h : (100 : ℚ) * ((z : ℚ) / 100) = (z : ℚ) := by ring
  rw [pyRound2, h, roundHalfEven_intCast]

theorem roundHalfEven_nonneg {q : ℚ} (h : 0 ≤ q) : 0 ≤ roundHalfEven q := by
  have hf : (0 : ℤ) ≤ ⌊q⌋ := Int.floor_nonneg.mpr h
  unfold roundHalfEven
  dsimp only
  split
  · exact hf
  · split
    · omega
    · split
      · exact hf
      · omega

theorem roundHalfEven_le_of_le_intCast {q : ℚ} {M : ℤ} (h : q ≤ (M : ℚ)) :
    roundHalfEven q ≤ M := by
  have hfl : ⌊q⌋ ≤ M := by
    have h2 := Int.floor_le_floor (α := ℚ) h
    simpa using h2
  rcases lt_or_eq_of_le hfl with hlt | heq
  · unfold roundHalfEven
    dsimp only
    split
    · omega
    · split
      · omega
      · split
        · omega
        · omega
  · -- the floor equals the bound, so `q = M` exactly and the fraction is zero
    have hq : q = (M : ℚ) := by
      have h1 : (M : ℚ) ≤ q := by
        have := Int.floor_le q
        rw [heq] at this
        exact_mod_cast this
      exact le_antisymm h h1
    subst hq
    rw [show ((M : ℚ)) = ((M : ℤ) : ℚ) by norm_cast, roundHalfEven_intCast]

/-! ### Shared list statistics helpers (Python `min` / `max` / `sorted[len//2]`) -/

/-- Python `min` on a non-empty list (0 on an empty list, never used there). -/
def listMin : List ℚ → ℚ
  | [] => 0
  | x :: xs => xs.foldl min x

/-- Python `max` on a non-empty list (0 on an empty list, never used there). -/
def listMax : List ℚ → ℚ
  | [] => 0
  | x :: xs => xs.foldl max x

/-- Python `sorted(values)[len(values)//2]`, the (upper) median used by the extractors. -/
def medianOf (l : List ℚ) : ℚ :=
  let s := l.insertionSort (· ≤ ·)
  s.getD (s.length / 2) 0

/-- NumPy `np.median`, used by `routes.calculate_statistics`: the middle
element of the sorted values, averaging the two middle elements on
even-length input. -/
def npMedian (l : List ℚ) : ℚ :=
  if l.length % 2 = 1 then (l.insertionSort (· ≤ ·)).getD (l.length / 2) 0
  else
    ((l.insertionSort (· ≤ ·)).getD (l.length / 2 - 1) 0 +
      (l.insertionSort (· ≤ ·)).getD (l.length / 2) 0) / 2

/-! ### Unit conversions (C7)

From `gee_era5land.py` (`temp_k - 273.15`), `gee_fldas.py`
(`_convert_to_percentage`) and `gee_smap.py` (`_convert_to_percentage`). -/

/-- ERA5-Land Kelvin → Celsius conversion applied to every sampled value. -/
def kelvinToCelsius (k : ℚ) : ℚ := k - 273.15

/-- The function `FLDASExtractor._convert_to_percentage`: kg/m² → percent via
`value / 400 * 100`, clamped to `[0, 100]` and rounded to 2 decimals; `None`
and the NODATA sentinel pass through as `-999`. -/
def fldasConvertToPercentage (value : Option ℚ) : ℚ :=
  match value with
  | none => -999
  | some v =>
    if v = -999 then -999
    else pyRound2 (max 0 (min 100 (v / 400 * 100)))

/-- The function `SMAPExtractor._convert_to_percentage`: m³/m³ → percent via `× 100`
(a server-side image multiply; no clamping, no rounding). -/
def smapConvertToPercentage (v : ℚ) : ℚ := v * 100

/-! ### SMAP per-variable statistics (C1, `SMAPExtractor.get_statistics`) -/

/-- One row of the SMAP daily timeseries; values use `-999` as NODATA. -/
structure SmapRow where
  date : ℤ
  smSurface : ℚ
  smRootzone : ℚ
  deriving DecidableEq, Repr

/-- Per-variable summary statistics as built by `SMAPExtractor.get_statistics`. -/
structure VarStats where
  mean : ℚ
  min : ℚ
  max : ℚ
  median : ℚ
  numDays : ℕ
  deriving DecidableEq, Repr

/-- The statistics dictionary built from a list of valid values. -/
def statsOfValid (l : List ℚ) : VarStats :=
  { mean := pyRound2 (l.sum / l.length)
    min := pyRound2 (listMin l)
    max := pyRound2 (listMax l)
    median := pyRound2 (medianOf l)
    numDays := l.length }

/-- The list `valid_surface` of `SMAPExtractor.get_statistics`: surface values that
are not the NODATA sentinel. -/
def smapValidSurface (ts : List SmapRow) : List ℚ :=
  (ts.map (·.smSurface)).filter (· ≠ -999)

/-- The list `valid_rootzone` of `SMAPExtractor.get_statistics`. -/
def smapValidRootzone (ts : List SmapRow) : List ℚ :=
  (ts.map (·.smRootzone)).filter (· ≠ -999)

/-- The method `SMAPExtractor.get_statistics` after the timeseries has been fetched:
filter out NODATA (`!= -999`) per variable, fail with
"No valid data points found" if either variable has no valid values, else
aggregate the valid values. -/
def smapGetStatistics (ts : List SmapRow) :
    Except String (VarStats × VarStats × ℕ) :=
  if smapValidSurface ts = [] ∨ smapValidRootzone ts = [] then
    .error "No valid data points found"
  else
    .ok (statsOfValid (smapValidSurface ts),
      statsOfValid (smapValidRootzone ts), ts.length)

/-! ### Comparison-engine per-period statistics (C1, `routes.calculate_statistics`)

`calculate_statistics(data, dataset)` selects one field per dataset
(`precip_mm` / `tavg_c` / `sm_rootzone`) and keeps every entry whose field is
not `None`; the input below is that selected column.  Note it does not filter
the `-999` NODATA sentinel.  (The `std` field of the Python dict is a floating
square root, irrational in general; it is not referenced by any claim and is
omitted from the embedding.) -/

/-- The statistics dictionary built by `routes.calculate_statistics`. -/
structure CompStats where
  mean : ℚ
  min : ℚ
  max : ℚ
  median : ℚ
  sum : ℚ
  numDays : ℕ
  deriving DecidableEq, Repr

/-- The function `routes.calculate_statistics`: `None` input (empty data) and empty value
lists yield `None`; only missing (`is not None`) entries are dropped. -/
def calcStatistics (data : List (Option ℚ)) : Option CompStats :=
  if data = [] then none
  else if data.filterMap id = [] then none
  else
    some
      { mean := pyRound2 ((data.filterMap id).sum / (data.filterMap id).length)
        min := pyRound2 (listMin (data.filterMap id))
        max := pyRound2 (listMax (data.filterMap id))
        median := pyRound2 (npMedian (data.filterMap id))
        sum := pyRound2 (data.filterMap id).sum
        numDays := (data.filterMap id).length }

/-! ### Comparison engine (C5, `routes.calculate_comparison`)

The route validates `dataset ∈ {chirps, era5land, smap}` before dispatching,
so the dataset is embedded as a closed enumeration. -/

inductive Dataset
  | chirps
  | era5land
  | smap
  deriving DecidableEq, Repr

/-- The status/severity bucket chain of `calculate_comparison`, verbatim from
the source: rainfall and soil moisture branch on `-30 / -15 / 30 / 15`,
temperature branches on `10 / 5 / -10 / -5`. -/
def comparisonBuckets (dataset : Dataset) (meanPct : ℚ) : String × String :=
  match dataset with
  | .chirps =>
    if meanPct < -30 then ("Period 2 is much drier", "severe")
    else if meanPct < -15 then ("Period 2 is drier", "moderate")
    else if 30 < meanPct then ("Period 2 is much wetter", "high")
    else if 15 < meanPct then ("Period 2 is wetter", "moderate")
    else ("Periods are similar", "none")
  | .era5land =>
    if 10 < meanPct then ("Period 2 is much hotter", "severe")
    else if 5 < meanPct then ("Period 2 is hotter", "moderate")
    else if meanPct < -10 then ("Period 2 is much cooler", "severe")
    else if meanPct < -5 then ("Period 2 is cooler", "moderate")
    else ("Periods are similar", "none")
  | .smap =>
    if meanPct < -30 then ("Period 2 is much drier", "severe")
    else if meanPct < -15 then ("Period 2 is drier", "moderate")
    else if 30 < meanPct then ("Period 2 is much wetter", "high")
    else if 15 < meanPct then ("Period 2 is wetter", "moderate")
    else ("Periods are similar", "none")

/-- The comparison dictionary returned by `calculate_comparison` (the
human-readable `interpretation` sentence, pure string formatting, is omitted). -/
structure Comparison where
  meanDifference : ℚ
  meanPercentChange : ℚ
  medianDifference : ℚ
  sumDifference : ℚ
  status : String
  severity : String
  period1Mean : ℚ
  period2Mean : ℚ
  deriving DecidableEq, Repr

/-- The guarded percent change `(mean_diff / stats_1['mean'] * 100) if
stats_1['mean'] != 0 else 0`. -/
def calcMeanPct (s1 s2 : CompStats) : ℚ :=
  if s1.mean ≠ 0 then (s2.mean - s1.mean) / s1.mean * 100 else 0

/-- The function `routes.calculate_comparison`: `None` statistics for either period yield
the error dictionary (embedded as `none`); otherwise differences, the
divide-by-zero-guarded percent change, and the dataset-specific buckets. -/
def calcComparison (stats1 stats2 : Option CompStats) (dataset : Dataset) :
    Option Comparison :=
  match stats1, stats2 with
  | some s1, some s2 =>
    some
      { meanDifference := pyRound2 (s2.mean - s1.mean)
        meanPercentChange := pyRound2 (calcMeanPct s1 s2)
        medianDifference := pyRound2 (s2.median - s1.median)
        sumDifference := pyRound2 (s2.sum - s1.sum)
        status := (comparisonBuckets dataset (calcMeanPct s1 s2)).1
        severity := (comparisonBuckets dataset (calcMeanPct s1 s2)).2
        period1Mean := s1.mean
        period2Mean := s2.mean }
  | _, _ => none

/-! ### Timeseries extraction (C2)

`CHIRPSExtractor.get_timeseries` maps the feature list returned by the
backend for `filterDate(start, end)` (one feature per image, each a date and
an optional rainfall value) into rows and sorts them by date; nothing pads
the list to the calendar span.  Dates are embedded as day indices `ℤ`
(`YYYY-MM-DD` strings compare lexicographically exactly as their day indices
compare). -/

structure ChirpsRow where
  date : ℤ
  precipMm : ℚ
  deriving DecidableEq, Repr

/-- Row construction in `CHIRPSExtractor.get_timeseries`: a `None` rainfall
becomes the NODATA sentinel, otherwise `round(float(rainfall), 2)`. -/
def chirpsProcessFeature (f : ℤ × Option ℚ) : ChirpsRow :=
  { date := f.1
    precipMm :=
      match f.2 with
      | none => -999
      | some r => pyRound2 r }

/-- Date-ascending order on CHIRPS rows (Python `sorted(key = date)`). -/
def chirpsRowLe (a b : ChirpsRow) : Prop := a.date ≤ b.date

instance : DecidableRel chirpsRowLe := fun a b => inferInstanceAs (Decidable (a.date ≤ b.date))

instance : IsTotal ChirpsRow chirpsRowLe := ⟨fun a b => le_total a.date b.date⟩

instance : IsTrans ChirpsRow chirpsRowLe := ⟨fun _ _ _ hab hbc => le_trans hab hbc⟩

/-- The method `CHIRPSExtractor.get_timeseries`, as a function of the backend's feature
list: one output row per feature, sorted ascending by date. -/
def chirpsGetTimeseries (features : List (ℤ × Option ℚ)) : List ChirpsRow :=
  (features.map chirpsProcessFeature).insertionSort chirpsRowLe

/-- What the ERA5-Land per-day loop gets back from the backend for one day:
an exception, an empty hourly collection, point-mode hourly Kelvin samples
(each possibly the NODATA sentinel), or region-mode reduced Kelvin values. -/
inductive Era5DayData
  | failure
  | empty
  | point (samples : List ℚ)
  | region (tminK tmaxK tavgK : ℚ)
  deriving DecidableEq, Repr

structure Era5Row where
  date : ℤ
  tminC : ℚ
  tmaxC : ℚ
  tavgC : ℚ
  deriving DecidableEq, Repr

/-- Region-mode Kelvin → Celsius step of `ERA5LandExtractor.get_timeseries`:
values must be non-NODATA and positive, else NODATA. -/
def era5RegionValue (k : ℚ) : ℚ :=
  if k ≠ -999 ∧ 0 < k then pyRound2 (kelvinToCelsius k) else -999

/-- One day of `ERA5LandExtractor.get_timeseries`: exceptions and empty
collections become NODATA rows; point mode filters NODATA samples, converts
to Celsius and aggregates client-side; region mode converts the three reduced
Kelvin values. -/
def era5DayRow (date : ℤ) (d : Era5DayData) : Era5Row :=
  match d with
  | .failure => ⟨date, -999, -999, -999⟩
  | .empty => ⟨date, -999, -999, -999⟩
  | .point samples =>
    let temps := (samples.filter (· ≠ -999)).map kelvinToCelsius
    match temps with
    | [] => ⟨date, -999, -999, -999⟩
    | t :: ts =>
      ⟨date, pyRound2 (listMin (t :: ts)), pyRound2 (listMax (t :: ts)),
        pyRound2 ((t :: ts).sum / (t :: ts).length)⟩
  | .region tminK tmaxK tavgK =>
    ⟨date, era5RegionValue tminK, era5RegionValue tmaxK, era5RegionValue tavgK⟩

/-- The `while current_date <= end_dt` loop, with the number of remaining days
as fuel. -/
def era5Loop (fetch : ℤ → Era5DayData) (current : ℤ) : ℕ → List Era5Row
  | 0 => []
  | n + 1 => era5DayRow current (fetch current) :: era5Loop fetch (current + 1) n

/-- The method `ERA5LandExtractor.get_timeseries` as a function of a per-day backend
oracle: one row per calendar day of `[start, end]` in order. -/
def era5GetTimeseries (fetch : ℤ → Era5DayData) (startDay endDay : ℤ) :
    List Era5Row :=
  era5Loop fetch startDay (endDay - startDay + 1).toNat

/-! ### GeoTIFF export time-step caps (C6)

Each export is embedded as a function of the list of image dates the backend
collection yields (and, for ERA5-Land, of the requested day range), returning
the mode tag plus the list of exported time steps. -/

/-- All day indices of `[startDay, endDay]`. -/
def daysInRange (startDay endDay : ℤ) : List ℤ :=
  (List.range (endDay - startDay + 1).toNat).map (fun i : ℕ => startDay + (i : ℤ))

/-- The method `CHIRPSExtractor.export_geotiff`: multiband iterates
`range(min(count, 366))`, zip iterates `range(min(count, 31))`. -/
def chirpsExportGeotiff (imageDates : List ℤ) (mode : String) :
    Except String (String × List ℤ) :=
  if imageDates.length = 0 then
    .error "No CHIRPS data found for specified date range and location"
  else if mode = "multiband" then .ok ("multiband", imageDates.take 366)
  else .ok ("zip", imageDates.take 31)

/-- The method `ERA5LandExtractor.export_geotiff`: the daily-image loop runs
`while current_date <= end_dt and len(daily_images) < 366`; zip mode then
slices `daily_images[:31]`. -/
def era5ExportGeotiff (startDay endDay : ℤ) (mode : String) :
    Except String (String × List ℤ) :=
  if (daysInRange startDay endDay).take 366 = [] then
    .error "No ERA5-Land data found for specified date range"
  else if mode = "multiband" then
    .ok ("multiband", (daysInRange startDay endDay).take 366)
  else .ok ("zip", ((daysInRange startDay endDay).take 366).take 31)

/-- The method `SMAPExtractor.export_geotiff`: zip mode over 31 requested days raises;
otherwise both modes iterate over every image of the daily aggregated
collection with no truncation. -/
def smapExportGeotiff (startDay endDay : ℤ) (imageDates : List ℤ)
    (mode : String) : Except String (String × List ℤ) :=
  if mode = "zip" ∧ 31 < endDay - startDay + 1 then
    .error "Zip export mode limited to 31 days maximum"
  else if mode = "multiband" then
    if imageDates.length = 0 then .error "No images found in collection"
    else .ok ("multiband", imageDates)
  else
    if imageDates.length = 0 then .error "No images found in collection"
    else .ok ("zip", imageDates)

/-- The method `FLDASExtractor.export_geotiff`: multiband stacks every image of the
monthly collection; zip iterates `range(min(num_images, 60))`. -/
def fldasExportGeotiff (imageDates : List ℤ) (mode : String) :
    Except String (String × List ℤ) :=
  if imageDates.length = 0 then
    .error "No FLDAS data found for specified date range"
  else if mode = "multiband" then .ok ("multiband", imageDates)
  else .ok ("zip", imageDates.take 60)

/-! ### Job store and executor (C3, C9, `jobs.py`) -/

inductive JobStatus
  | queued
  | running
  | done
  | error
  deriving DecidableEq, Repr

/-- The persisted job record (`job_id`, `job_type`, `request_data`, `user_id`
and the two ISO timestamps carry no lifecycle information and are omitted). -/
structure JobRecord where
  status : JobStatus
  progress : ℤ
  error : Option String
  downloadUrls : Option (List (String × Option String))
  deriving DecidableEq, Repr

/-- The method `JobStore.create_job`: a fresh record, `status=queued`, `progress=0`,
`error=None`, `download_urls=None`. -/
def createJob : JobRecord :=
  { status := .queued, progress := 0, error := none, downloadUrls := none }

/-- The method `JobStore.update_job`: partial merge — only supplied fields change, and a
supplied progress is clamped by `max(0, min(100, progress))`. -/
def updateJob (j : JobRecord) (status : Option JobStatus) (progress : Option ℤ)
    (error : Option String)
    (downloadUrls : Option (List (String × Option String))) : JobRecord :=
  { status := status.getD j.status
    progress :=
      match progress with
      | some p => max 0 (min 100 p)
      | none => j.progress
    error :=
      match error with
      | some e => some e
      | none => j.error
    downloadUrls :=
      match downloadUrls with
      | some u => some u
      | none => j.downloadUrls }

/-- The method `JobStore.mark_running`. -/
def markRunning (j : JobRecord) : JobRecord :=
  updateJob j (some .running) (some 10) none none

/-- The method `JobStore.mark_done`. -/
def markDone (j : JobRecord) (urls : List (String × Option String)) : JobRecord :=
  updateJob j (some .done) (some 100) none (some urls)

/-- The method `JobStore.mark_error`. -/
def markError (j : JobRecord) (e : String) : JobRecord :=
  updateJob j (some .error) none (some e) none

/-- The export result an extractor hands back to the executor. -/
inductive ExportOutcome
  | multiband (url : String)
  | zipped (fileUrls : List String)
  deriving DecidableEq, Repr

/-- The `download_urls` dict built by `JobExecutor.execute_geotiff_job`:
multiband keeps the single URL, zip keeps the first file's URL (or `None`
when the file list is empty). -/
def outcomeUrls : ExportOutcome → List (String × Option String)
  | .multiband url => [("tif", some url)]
  | .zipped fileUrls => [("tif", fileUrls.head?)]

/-- The method `JobExecutor.execute_geotiff_job` on an existing job, as a function of the
dispatched export call's result (an exception anywhere in the body lands in
the `except` arm, which calls `mark_error`). -/
def executeGeotiffJob (j : JobRecord) (res : Except String ExportOutcome) :
    JobRecord :=
  let j1 := markRunning j
  match res with
  | .error e => markError j1 e
  | .ok out => markDone (updateJob j1 none (some 80) none none) (outcomeUrls out)

/-- One mutating `JobStore` call on a given job record. -/
inductive JobOp
  | update (status : Option JobStatus) (progress : Option ℤ)
      (error : Option String)
      (urls : Option (List (String × Option String)))
  | run
  | finish (urls : List (String × Option String))
  | fail (e : String)
  deriving Repr

def applyJobOp (j : JobRecord) : JobOp → JobRecord
  | .update status progress error urls => updateJob j status progress error urls
  | .run => markRunning j
  | .finish urls => markDone j urls
  | .fail e => markError j e

/-! ### Request cache (C4, C10, `caching.py`)

The on-disk state is a list of `(path, content, mtime)` triples.  A cache
path is the pair of the request-parameter value and the format extension: the
SHA-256 hex of the canonical sorted-key JSON serialization is modelled as an
injective function of the parameters, so distinct parameter dictionaries get
distinct cache files and equal ones collide, exactly as the spec's
content-addressing intends.  File contents (including the opaque bytes of
CSV/TIFF artifacts) are JSON-like values; `json.dump`/`json.load` round-trip
a JSON-serializable value unchanged, so serialization is the identity at this
level. -/

/- JSON-serializable values (arrays and objects via mutual inductives so that
equality stays decidable). -/
mutual

inductive Json
  | null
  | boolean (b : Bool)
  | num (q : ℚ)
  | str (s : String)
  | arr (items : JsonList)
  | obj (fields : JsonFields)
  deriving DecidableEq, Repr

inductive JsonList
  | nil
  | cons (head : Json) (tail : JsonList)
  deriving DecidableEq, Repr

inductive JsonFields
  | nil
  | cons (key : String) (val : Json) (tail : JsonFields)
  deriving DecidableEq, Repr

end

/-- A filesystem path: either a cache artifact (parameter key + extension) or
a file outside the cache directory (source of a CSV/TIFF copy). -/
inductive Path
  | cache (key : Json) (ext : String)
  | external (name : String)
  deriving DecidableEq, Repr

/-- The modelled filesystem: path, content, modification time. -/
abbrev FS := List (Path × Json × ℤ)

def fsLookup (fs : FS) (p : Path) : Option (Json × ℤ) :=
  (fs.find? (fun e => e.1 == p)).map (·.2)

def fsErase (fs : FS) (p : Path) : FS :=
  fs.filter (fun e => !(e.1 == p))

def fsWrite (fs : FS) (p : Path) (content : Json) (mtime : ℤ) : FS :=
  (p, content, mtime) :: fsErase fs p

/-- The extension chosen per format string; unknown formats get none. -/
def cacheExt : String → Option String
  | "json" => some "json"
  | "csv" => some "csv"
  | "tiff" => some "tif"
  | _ => none

/-- What `RequestCache.get` hands back: a parsed JSON structure, or the cache
file path for binary formats. -/
inductive CacheGetResult
  | jsonData (j : Json)
  | filePath (p : Path)
  deriving DecidableEq, Repr

/-- The method `RequestCache.get`: unknown format → miss; missing file → miss; artifact
older than the TTL → delete it and miss; otherwise the parsed JSON (json) or
the cache file path (csv/tiff). -/
def cacheGet (fs : FS) (params : Json) (fmt : String) (now ttl : ℤ) :
    FS × Option CacheGetResult :=
  match cacheExt fmt with
  | none => (fs, none)
  | some e =>
    let path := Path.cache params e
    match fsLookup fs path with
    | none => (fs, none)
    | some (content, mtime) =>
      if ttl < now - mtime then (fsErase fs path, none)
      else if fmt = "json" then (fs, some (.jsonData content))
      else (fs, some (.filePath path))

/-- The method `RequestCache.set`: unknown format → return `""` (modelled `none`) and
write nothing; json → `json.dump` writes a fresh cache file (mtime = now);
csv/tiff → `data` must be a source path whose content is copied with
`shutil.copy2`, which preserves the source file's modification time on the
cached copy (a failing copy is caught and returns `""`). -/
def cacheSet (fs : FS) (params data : Json) (fmt : String) (now : ℤ) :
    FS × Option Path :=
  match cacheExt fmt with
  | none => (fs, none)
  | some e =>
    let path := Path.cache params e
    if fmt = "json" then (fsWrite fs path data now, some path)
    else
      match data with
      | .str src =>
        match fsLookup fs (Path.external src) with
        | some (content, srcMtime) => (fsWrite fs path content srcMtime, some path)
        | none => (fs, none)
      | _ => (fs, none)

/-! ### Date-range validation (C8, `reducers.validate_date_range`)

Calendar dates are `YYYY-MM-DD` triples; `datetime` subtraction is the
difference of linear day counts, computed here by the standard civil-calendar
day-number algorithm (exact for the proleptic Gregorian calendar, all
intermediate quantities non-negative for years ≥ 1). -/

structure CivilDate where
  year : ℤ
  month : ℤ
  day : ℤ
  deriving DecidableEq, Repr

/-- Days since 1970-01-01 of a civil date. -/
def daysFromCivil (dt : CivilDate) : ℤ :=
  let y := if dt.month ≤ 2 then dt.year - 1 else dt.year
  let era := (if 0 ≤ y then y else y - 399) / 400
  let yoe := y - era * 400
  let mp := (dt.month + 9) % 12
  let doy := (153 * mp + 2) / 5 + dt.day - 1
  let doe := yoe * 365 + yoe / 4 - yoe / 100 + doy
  era * 146097 + doe - 719468

/-- The span `(end - start).days + 1` of `validate_date_range`. -/
def dateSpanDays (startDate endDate : CivilDate) : ℤ :=
  daysFromCivil endDate - daysFromCivil startDate + 1

/-- The function `reducers.validate_date_range` (the two error messages are abbreviated to
their fixed prefixes; the code interpolates the day counts into them). -/
def validateDateRange (startDate endDate : CivilDate) (maxDays : ℤ) :
    Except String Unit :=
  if maxDays < dateSpanDays startDate endDate then .error "Date range too long"
  else if dateSpanDays startDate endDate < 1 then
    .error "Invalid date range: start must be before or equal to end"
  else .ok ()

/-- Whether an `Except` result is an error. -/
def isError {ε α : Type} : Except ε α → Bool
  | .error _ => true
  | .ok _ => false

/-! ## Theorems -/

/-- Rounding `pyRound2` maps `[0, M]` into `[0, M]` for an integer bound `M`. -/
theorem pyRound2_mem_Icc {q : ℚ} {M : ℤ} (h0 : 0 ≤ q) (hM : q ≤ (M : ℚ)) :
    0 ≤ pyRound2 q ∧ pyRound2 q ≤ (M : ℚ) := by
  have h100 : (0 : ℚ) ≤ 100 * q := by positivity
  have hub : 100 * q ≤ ((100 * M : ℤ) : ℚ) := by push_cast; nlinarith
  have hlo := roundHalfEven_nonneg h100
  have hhi := roundHalfEven_le_of_le_intCast hub
  constructor
  · unfold pyRound2
    positivity
  · unfold pyRound2
    rw [div_le_iff₀ (by norm_num)]
    calc ((roundHalfEven (100 * q) : ℚ)) ≤ ((100 * M : ℤ) : ℚ) := by exact_mod_cast hhi
      _ = (M : ℚ) * 100 := by push_cast; ring

/-- C7: the unit conversions are exact per dataset — ERA5-Land subtracts
273.15 from Kelvin (300 K ↦ 26.85 °C exactly, hence within ±0.01); FLDAS
converts kg/m² via `v/400*100` clamped to `[0,100]` (200 ↦ 50.0 %); SMAP
converts m³/m³ via `×100` (0.30 ↦ 30.0 %). -/
theorem unit_conversions_exact :
    (∀ t : ℚ, kelvinToCelsius t = t - 273.15) ∧
    kelvinToCelsius 300 = 26.85 ∧
    (∀ v : ℚ, v ≠ -999 →
      fldasConvertToPercentage (some v) =
        pyRound2 (max 0 (min 100 (v / 400 * 100))) ∧
      0 ≤ fldasConvertToPercentage (some v) ∧
      fldasConvertToPercentage (some v) ≤ 100) ∧
    fldasConvertToPercentage (some 200) = 50 ∧
    (∀ f : ℚ, smapConvertToPercentage f = f * 100) ∧
    smapConvertToPercentage (3/10) = 30 := by
  refine ⟨fun t => rfl, by norm_num [kelvinToCelsius], fun v hv => ?_, ?_, fun f => rfl, by
    norm_num [smapConvertToPercentage]⟩
  · have hdef : fldasConvertToPercentage (some v) =
        pyRound2 (max 0 (min 100 (v / 400 * 100))) := by
      simp [fldasConvertToPercentage, hv]
    have h0 : (0 : ℚ) ≤ max 0 (min 100 (v / 400 * 100)) := le_max_left 0 _
    have h100 : max 0 (min 100 (v / 400 * 100)) ≤ ((100 : ℤ) : ℚ) := by
      rw [max_le_iff]
      constructor
      · norm_num
      · calc min 100 (v / 400 * 100) ≤ 100 := min_le_left _ _
          _ = ((100 : ℤ) : ℚ) := by norm_num
    have hbounds := pyRound2_mem_Icc h0 h100
    rw [hdef]
    refine ⟨rfl, hbounds.1, ?_⟩
    calc pyRound2 (max 0 (min 100 (v / 400 * 100))) ≤ ((100 : ℤ) : ℚ) := hbounds.2
      _ = 100 := by norm_num
  · show fldasConvertToPercentage (some 200) = 50
    norm_num [fldasConvertToPercentage, pyRound2, roundHalfEven]

/-- Witness for C7: the FLDAS conversion clause applied at 200 kg/m². -/
theorem unit_conversions_exact_witness :
    (200 : ℚ) ≠ -999 ∧
      fldasConvertToPercentage (some 200) =
        pyRound2 (max 0 (min 100 ((200 : ℚ) / 400 * 100))) := by
  have h : (200 : ℚ) ≠ -999 := by norm_num
  exact ⟨h, (unit_conversions_exact.2.2.1 200 h).1⟩

/-- C8: `validate_date_range` fails exactly when `span = end - start + 1`
exceeds `maxDays` or is below 1, and `span < 1` is exactly `end < start` (in
day numbers); hence every reversed range is rejected — by a pure computation,
before any backend call could be attempted. -/
theorem validate_date_range_iff (s e : CivilDate) (m : ℤ) :
    (isError (validateDateRange s e m) = true ↔
      m < dateSpanDays s e ∨ dateSpanDays s e < 1) ∧
    (dateSpanDays s e < 1 ↔ daysFromCivil e < daysFromCivil s) ∧
    (daysFromCivil e < daysFromCivil s →
      isError (validateDateRange s e m) = true) := by
  refine ⟨?_, ?_, ?_⟩
  · unfold validateDateRange
    split
    · simp [isError]
      omega
    · split
      · simp [isError]
        omega
      · simp [isError]
        omega
  · unfold dateSpanDays
    omega
  · intro h
    unfold validateDateRange
    split
    · simp [isError]
    · split
      · simp [isError]
      · exfalso
        unfold dateSpanDays at *
        omega

/-- Witness for C8: the reversed range 2024-03-01..2024-02-28 is rejected. -/
theorem validate_date_range_iff_witness :
    daysFromCivil ⟨2024, 2, 28⟩ < daysFromCivil ⟨2024, 3, 1⟩ ∧
      isError (validateDateRange ⟨2024, 3, 1⟩ ⟨2024, 2, 28⟩ 366) = true := by
  have h : daysFromCivil ⟨2024, 2, 28⟩ < daysFromCivil ⟨2024, 3, 1⟩ := by decide
  exact ⟨h, (validate_date_range_iff ⟨2024, 3, 1⟩ ⟨2024, 2, 28⟩ 366).2.2 h⟩

theorem applyJobOp_progress_bound (j : JobRecord) (op : JobOp)
    (h0 : 0 ≤ j.progress) (h1 : j.progress ≤ 100) :
    0 ≤ (applyJobOp j op).progress ∧ (applyJobOp j op).progress ≤ 100 := by
  cases op with
  | update status progress error urls =>
    cases progress with
    | none => simpa [applyJobOp, updateJob] using ⟨h0, h1⟩
    | some p =>
      simp only [applyJobOp, updateJob]
      omega
  | run => simp [applyJobOp, markRunning, updateJob]
  | finish urls => simp [applyJobOp, markDone, updateJob]
  | fail e => simpa [applyJobOp, markError, updateJob] using ⟨h0, h1⟩

theorem foldl_applyJobOp_progress_bound (ops : List JobOp) (j : JobRecord)
    (h0 : 0 ≤ j.progress) (h1 : j.progress ≤ 100) :
    0 ≤ (ops.foldl applyJobOp j).progress ∧
      (ops.foldl applyJobOp j).progress ≤ 100 := by
  induction ops generalizing j with
  | nil => exact ⟨h0, h1⟩
  | cons op rest ih =>
    have hb := applyJobOp_progress_bound j op h0 h1
    simpa [List.foldl_cons] using ih (applyJobOp j op) hb.1 hb.2

/-- C9: starting from `create_job`'s record (`progress = 0`), every sequence
of `JobStore` mutations (partial updates with clamping, `mark_running`,
`mark_done`, `mark_error`) keeps the persisted progress in `[0, 100]`. -/
theorem job_progress_in_range (ops : List JobOp) :
    0 ≤ (ops.foldl applyJobOp createJob).progress ∧
      (ops.foldl applyJobOp createJob).progress ≤ 100 :=
  foldl_applyJobOp_progress_bound ops createJob (by simp [createJob]) (by simp [createJob])

theorem cacheExt_eq_none {fmt : String} (h1 : fmt ≠ "json") (h2 : fmt ≠ "csv")
    (h3 : fmt ≠ "tiff") : cacheExt fmt = none := by
  unfold cacheExt
  split <;> simp_all

/-- C10: any format string other than "json", "csv" and "tiff" makes
`RequestCache.get` a miss and `RequestCache.set` a no-op returning the empty
path, with the filesystem untouched — never an error. -/
theorem unknown_format_cache_noop (fs : FS) (params data : Json) (fmt : String)
    (now ttl : ℤ) (h1 : fmt ≠ "json") (h2 : fmt ≠ "csv") (h3 : fmt ≠ "tiff") :
    cacheGet fs params fmt now ttl = (fs, none) ∧
      cacheSet fs params data fmt now = (fs, none) := by
  have he := cacheExt_eq_none h1 h2 h3
  constructor
  · unfold cacheGet
    rw [he]
  · unfold cacheSet
    rw [he]

/-- Witness for C10: the unrecognized format "xml" misses and writes nothing. -/
theorem unknown_format_cache_noop_witness :
    cacheGet [] .null "xml" 0 24 = ([], none) ∧
      cacheSet [] .null .null "xml" 0 = ([], none) :=
  unknown_format_cache_noop [] .null .null "xml" 0 24
    (by decide) (by decide) (by decide)

/-- C3 (amended): `create_job` persists `queued`/`progress 0`; executing an
existing job ends it in `done` with `progress = 100` and non-null
`download_urls` on success, or in `error` with a non-null `error` message on
failure.  However (see the counterexample) the `JobStore` itself does not
guard transitions, so the terminal-state finality claimed for arbitrary
operation sequences does not hold. -/
theorem job_lifecycle (j : JobRecord) (res : Except String ExportOutcome) :
    createJob.status = .queued ∧ createJob.progress = 0 ∧
    (∀ out, res = .ok out →
      (executeGeotiffJob j res).status = .done ∧
      (executeGeotiffJob j res).progress = 100 ∧
      (executeGeotiffJob j res).downloadUrls = some (outcomeUrls out)) ∧
    (∀ e, res = .error e →
      (executeGeotiffJob j res).status = .error ∧
      (executeGeotiffJob j res).error = some e) := by
  refine ⟨rfl, rfl, fun out hout => ?_, fun e herr => ?_⟩
  · subst hout
    simp [executeGeotiffJob, markDone, markRunning, updateJob]
  · subst herr
    simp [executeGeotiffJob, markError, markRunning, updateJob]

/-- Witness for C3: a concrete successful and a concrete failed execution. -/
theorem job_lifecycle_witness :
    (executeGeotiffJob createJob (.ok (.multiband "u"))).status = .done ∧
      (executeGeotiffJob createJob (.error "boom")).error = some "boom" :=
  ⟨((job_lifecycle createJob (.ok (.multiband "u"))).2.2.1 (.multiband "u") rfl).1,
    ((job_lifecycle createJob (.error "boom")).2.2.2 "boom" rfl).2⟩

/-- C3 counterexample: the store enforces no state machine — `mark_running`
on a `done` job moves it back to `running`, and `update_job` can even set a
started job back to `queued`; so a sequence of `JobStore` operations can
leave a terminal state, contrary to the claim. -/
theorem job_store_terminal_not_guarded :
    (markDone (markRunning createJob) [("tif", some "u")]).status = .done ∧
    (markRunning (markDone (markRunning createJob) [("tif", some "u")])).status
      = .running ∧
    (markRunning createJob).status = .running ∧
    (updateJob (markRunning createJob) (some .queued) none none none).status
      = .queued :=
  ⟨rfl, rfl, rfl, rfl⟩

/-- C1 (amended): `SMAPExtractor.get_statistics` filters the `-999` NODATA
sentinel out per variable and fails with "No valid data points found" exactly
when a variable has no valid values left, aggregating only valid values
otherwise; but the comparison engine's `calculate_statistics` drops only
missing (`None`) entries — the NODATA sentinel is counted and aggregated (see
the counterexample) — and an empty value list yields `None` rather than an
explicit error. -/
theorem statistics_nodata_handling (ts : List SmapRow) (data : List (Option ℚ)) :
    (isError (smapGetStatistics ts) = true ↔
      (smapValidSurface ts = [] ∨ smapValidRootzone ts = [])) ∧
    (smapGetStatistics ts = .error "No valid data points found" ∨
      smapGetStatistics ts =
        .ok (statsOfValid (smapValidSurface ts),
          statsOfValid (smapValidRootzone ts), ts.length)) ∧
    (calcStatistics data = none ↔ data = [] ∨ data.filterMap id = []) ∧
    (∀ st, calcStatistics data = some st →
      st.numDays = (data.filterMap id).length ∧
      st.mean = pyRound2 ((data.filterMap id).sum / (data.filterMap id).length)) := by
  refine ⟨?_, ?_, ?_, ?_⟩
  · unfold smapGetStatistics
    split <;> simp_all [isError]
  · unfold smapGetStatistics
    split
    · exact Or.inl rfl
    · exact Or.inr rfl
  · unfold calcStatistics
    split
    · simp_all
    · split
      · rename_i hne hempty
        exact ⟨fun _ => Or.inr hempty, fun _ => rfl⟩
      · rename_i hne hnonempty
        constructor
        · intro h
          simp at h
        · intro h
          rcases h with h | h
          · exact absurd h hne
          · exact absurd h hnonempty
  · intro st hst
    unfold calcStatistics at hst
    split at hst
    · cases hst
    · split at hst
      · cases hst
      · injection hst with h
        subst h
        exact ⟨rfl, rfl⟩

/-- Witness for C1: a timeseries with one valid and one NODATA day — SMAP
statistics keep only the valid day; the comparison statistics on a column
with one missing and one present value count the present value. -/
theorem statistics_nodata_handling_witness :
    smapGetStatistics [⟨0, -999, -999⟩, ⟨1, 20, 30⟩] =
      .ok (statsOfValid [20], statsOfValid [30], 2) ∧
    (calcStatistics [none, some 5]).map (·.numDays) = some 1 := by
  have hs : smapValidSurface [⟨0, -999, -999⟩, ⟨1, 20, 30⟩] = [20] := by
    norm_num [smapValidSurface, List.filter, List.map]
  have hr : smapValidRootzone [⟨0, -999, -999⟩, ⟨1, 20, 30⟩] = [30] := by
    norm_num [smapValidRootzone, List.filter, List.map]
  have h := statistics_nodata_handling [⟨0, -999, -999⟩, ⟨1, 20, 30⟩] [none, some 5]
  constructor
  · rcases h.2.1 with herr | hok
    · exfalso
      have hiserr : isError
          (smapGetStatistics [⟨0, -999, -999⟩, ⟨1, 20, 30⟩]) = true := by
        rw [herr]; rfl
      rw [h.1, hs, hr] at hiserr
      simp at hiserr
    · rw [hok, hs, hr]
      norm_num
  · cases hcs : calcStatistics [none, some 5] with
    | none =>
        have hempty := h.2.2.1.mp hcs
        simp [List.filterMap] at hempty
    | some st =>
        have hn := (h.2.2.2 st hcs).1
        simp only [Option.map_some', Option.some.injEq, hn]
        norm_num [List.filterMap]

/-- C1 counterexample: `calculate_statistics` on a single-row period whose
soil-moisture value is the NODATA sentinel `-999` returns statistics with
`mean = -999` and `count = 1` instead of excluding the sentinel and failing
with "no valid data points". -/
theorem comparison_stats_include_nodata :
    calcStatistics [some (-999)] =
      some { mean := -999, min := -999, max := -999, median := -999,
             sum := -999, numDays := 1 } := by
  norm_num [calcStatistics, List.filterMap, listMin, listMax, npMedian,
    pyRound2, roundHalfEven]

/-- C5 (amended): the comparison engine returns
`mean_difference = mean2 - mean1` and
`mean_percent_change = (mean2 - mean1)/mean1 × 100` (0 when `mean1 = 0`),
both rounded to two decimals, and buckets status/severity on the raw percent
change — with thresholds ±15 % / ±30 % for rainfall and soil moisture
(negative = drier, identical bucket chains) but ±5 % / ±10 % for temperature
(positive = hotter), not ±15/±30 for every dataset. -/
theorem comparison_metrics_formulas (s1 s2 : CompStats) (ds : Dataset) :
    (∀ c, calcComparison (some s1) (some s2) ds = some c →
      c.meanDifference = pyRound2 (s2.mean - s1.mean) ∧
      (s1.mean = 0 → c.meanPercentChange = 0) ∧
      (s1.mean ≠ 0 →
        c.meanPercentChange = pyRound2 ((s2.mean - s1.mean) / s1.mean * 100)) ∧
      (c.status, c.severity) =
        comparisonBuckets ds
          (if s1.mean ≠ 0 then (s2.mean - s1.mean) / s1.mean * 100 else 0)) ∧
    (∀ pct : ℚ,
      comparisonBuckets .smap pct = comparisonBuckets .chirps pct ∧
      ((comparisonBuckets .chirps pct).2 = "none" ↔ -15 ≤ pct ∧ pct ≤ 15) ∧
      (pct < -30 →
        comparisonBuckets .chirps pct = ("Period 2 is much drier", "severe")) ∧
      (-30 ≤ pct → pct < -15 →
        comparisonBuckets .chirps pct = ("Period 2 is drier", "moderate")) ∧
      (30 < pct →
        comparisonBuckets .chirps pct = ("Period 2 is much wetter", "high")) ∧
      (15 < pct → pct ≤ 30 →
        comparisonBuckets .chirps pct = ("Period 2 is wetter", "moderate")) ∧
      ((comparisonBuckets .era5land pct).2 = "none" ↔ -5 ≤ pct ∧ pct ≤ 5) ∧
      (10 < pct →
        comparisonBuckets .era5land pct = ("Period 2 is much hotter", "severe")) ∧
      (5 < pct → pct ≤ 10 →
        comparisonBuckets .era5land pct = ("Period 2 is hotter", "moderate")) ∧
      (pct < -10 →
        comparisonBuckets .era5land pct = ("Period 2 is much cooler", "severe")) ∧
      (-10 ≤ pct → pct < -5 →
        comparisonBuckets .era5land pct = ("Period 2 is cooler", "moderate"))) := by
  constructor
  · intro c hc
    unfold calcComparison at hc
    injection hc with h
    subst h
    refine ⟨rfl, fun h0 => ?_, fun h0 => ?_, rfl⟩
    · show pyRound2 (calcMeanPct s1 s2) = 0
      unfold calcMeanPct
      rw [if_neg (by simp [h0])]
      norm_num [pyRound2, roundHalfEven]
    · show pyRound2 (calcMeanPct s1 s2) =
        pyRound2 ((s2.mean - s1.mean) / s1.mean * 100)
      unfold calcMeanPct
      rw [if_pos h0]
  · intro pct
    refine ⟨rfl, ?_, ?_, ?_, ?_, ?_, ?_, ?_, ?_, ?_, ?_⟩
    · simp only [comparisonBuckets]
      split_ifs with h1 h2 h3 h4
      · exact ⟨fun hts => absurd hts (by decide), fun ⟨ha, _⟩ => absurd h1 (by linarith)⟩
      · exact ⟨fun hts => absurd hts (by decide), fun ⟨ha, _⟩ => absurd h2 (by linarith)⟩
      · exact ⟨fun hts => absurd hts (by decide), fun ⟨_, hb⟩ => absurd h3 (by linarith)⟩
      · exact ⟨fun hts => absurd hts (by decide), fun ⟨_, hb⟩ => absurd h4 (by linarith)⟩
      · exact ⟨fun _ => ⟨by linarith, by linarith⟩, fun _ => rfl⟩
    · intro h1
      simp only [comparisonBuckets]
      split_ifs with ha hb hc hd <;> first | rfl | (exfalso; linarith)
    · intro h1 h2
      simp only [comparisonBuckets]
      split_ifs with ha hb hc hd <;> first | rfl | (exfalso; linarith)
    · intro h1
      simp only [comparisonBuckets]
      split_ifs with ha hb hc hd <;> first | rfl | (exfalso; linarith)
    · intro h1 h2
      simp only [comparisonBuckets]
      split_ifs with ha hb hc hd <;> first | rfl | (exfalso; linarith)
    · simp only [comparisonBuckets]
      split_ifs with h1 h2 h3 h4
      · exact ⟨fun hts => absurd hts (by decide), fun ⟨_, hb⟩ => absurd h1 (by linarith)⟩
      · exact ⟨fun hts => absurd hts (by decide), fun ⟨_, hb⟩ => absurd h2 (by linarith)⟩
      · exact ⟨fun hts => absurd hts (by decide), fun ⟨ha, _⟩ => absurd h3 (by linarith)⟩
      · exact ⟨fun hts => absurd hts (by decide), fun ⟨ha, _⟩ => absurd h4 (by linarith)⟩
      · exact ⟨fun _ => ⟨by linarith, by linarith⟩, fun _ => rfl⟩
    · intro h1
      simp only [comparisonBuckets]
      split_ifs with ha hb hc hd <;> first | rfl | (exfalso; linarith)
    · intro h1 h2
      simp only [comparisonBuckets]
      split_ifs with ha hb hc hd <;> first | rfl | (exfalso; linarith)
    · intro h1
      simp only [comparisonBuckets]
      split_ifs with ha hb hc hd <;> first | rfl | (exfalso; linarith)
    · intro h1 h2
      simp only [comparisonBuckets]
      split_ifs with ha hb hc hd <;> first | rfl | (exfalso; linarith)

/-- Witness for C5: a +20 % rainfall change buckets as "wetter"/moderate, a
+7 % temperature change as "hotter"/moderate, and on concrete periods with
means 100 and 120 the mean difference is 20. -/
theorem comparison_metrics_formulas_witness :
    comparisonBuckets .chirps 20 = ("Period 2 is wetter", "moderate") ∧
    comparisonBuckets .era5land 7 = ("Period 2 is hotter", "moderate") ∧
    (calcComparison (some ⟨100, 90, 110, 100, 3000, 30⟩)
        (some ⟨120, 90, 130, 120, 3600, 30⟩) .chirps).map (·.meanDifference)
      = some 20 := by
  refine ⟨((comparison_metrics_formulas ⟨0, 0, 0, 0, 0, 0⟩ ⟨0, 0, 0, 0, 0, 0⟩
      .chirps).2 20).2.2.2.2.2.1 (by norm_num) (by norm_num),
    ((comparison_metrics_formulas ⟨0, 0, 0, 0, 0, 0⟩ ⟨0, 0, 0, 0, 0, 0⟩
      .era5land).2 7).2.2.2.2.2.2.2.2.1 (by norm_num) (by norm_num), ?_⟩
  cases hc : calcComparison (some ⟨100, 90, 110, 100, 3000, 30⟩)
      (some ⟨120, 90, 130, 120, 3600, 30⟩) .chirps with
  | none => exact absurd hc (by simp [calcComparison])
  | some c =>
    have h1 := ((comparison_metrics_formulas ⟨100, 90, 110, 100, 3000, 30⟩
      ⟨120, 90, 130, 120, 3600, 30⟩ .chirps).1 c hc).1
    simp only [Option.map_some', Option.some.injEq, h1]
    norm_num [pyRound2, roundHalfEven]

/-- C5 counterexample: the temperature dataset does not use the ±15 %/±30 %
thresholds the claim asserts for every dataset — a +7 % change in mean
temperature (means 100 → 107) is bucketed as "hotter"/"moderate" although
|7 %| is below the claimed 15 % "similar" boundary. -/
theorem era5land_buckets_not_15_30 :
    (calcComparison (some ⟨100, 100, 100, 100, 100, 1⟩)
        (some ⟨107, 107, 107, 107, 107, 1⟩) .era5land).map
      (fun c => (c.status, c.severity, c.meanPercentChange))
      = some ("Period 2 is hotter", "moderate", 7) ∧
    ¬((7 : ℚ) < -15 ∨ 15 < (7 : ℚ)) := by
  constructor
  · have hpct : calcMeanPct ⟨100, 100, 100, 100, 100, 1⟩
        ⟨107, 107, 107, 107, 107, 1⟩ = 7 := by
      norm_num [calcMeanPct]
    simp only [calcComparison, Option.map_some', Option.some.injEq, hpct]
    norm_num [comparisonBuckets, pyRound2, roundHalfEven]
  · norm_num

theorem era5DayRow_date (d : ℤ) (x : Era5DayData) : (era5DayRow d x).date = d := by
  cases x with
  | failure => rfl
  | empty => rfl
  | point samples =>
    simp only [era5DayRow]
    split <;> rfl
  | region a b c => rfl

theorem era5Loop_length (fetch : ℤ → Era5DayData) (c : ℤ) (n : ℕ) :
    (era5Loop fetch c n).length = n := by
  induction n generalizing c with
  | zero => rfl
  | succ n ih => simp [era5Loop, ih]

theorem era5Loop_map_date (fetch : ℤ → Era5DayData) (c : ℤ) (n : ℕ) :
    (era5Loop fetch c n).map (·.date) =
      (List.range n).map (fun i : ℕ => c + (i : ℤ)) := by
  induction n generalizing c with
  | zero => rfl
  | succ n ih =>
    rw [List.range_succ_eq_map]
    simp only [era5Loop, List.map_cons, era5DayRow_date, ih, List.map_map]
    congr 1
    · simp
    · refine List.map_congr_left fun i _ => ?_
      simp only [Function.comp_apply, Nat.succ_eq_add_one]
      push_cast
      ring

theorem era5_dates_pairwise (fetch : ℤ → Era5DayData) (c : ℤ) (n : ℕ) :
    List.Pairwise (fun a b : Era5Row => a.date < b.date) (era5Loop fetch c n) := by
  have hmap : ((era5Loop fetch c n).map (·.date)).Pairwise (· < ·) := by
    rw [era5Loop_map_date]
    refine List.Pairwise.map (fun i : ℕ => c + (i : ℤ))
      (fun i j hij => ?_) (List.pairwise_lt_range n)
    show c + (i : ℤ) < c + (j : ℤ)
    omega
  exact (List.pairwise_map).mp hmap

/-- C2 (amended): the ERA5-Land extractor iterates the calendar days of
`[start, end]` and emits exactly `span = end - start + 1` rows, one per day,
with strictly ascending (hence duplicate-free) dates; the CHIRPS extractor
emits one row per feature of the backend's (end-exclusive) date filter,
sorted ascending by date with no duplicates when the backend dates are
distinct — its row count equals the backend feature count, not the span. -/
theorem timeseries_entries (fetch : ℤ → Era5DayData) (s e : ℤ) (h : s ≤ e)
    (features : List (ℤ × Option ℚ)) :
    ((era5GetTimeseries fetch s e).length : ℤ) = e - s + 1 ∧
    (era5GetTimeseries fetch s e).map (·.date) =
      (List.range (e - s + 1).toNat).map (fun i : ℕ => s + (i : ℤ)) ∧
    List.Pairwise (fun a b : Era5Row => a.date < b.date)
      (era5GetTimeseries fetch s e) ∧
    ((era5GetTimeseries fetch s e).map (·.date)).Nodup ∧
    (chirpsGetTimeseries features).length = features.length ∧
    List.Sorted chirpsRowLe (chirpsGetTimeseries features) ∧
    ((features.map (·.1)).Nodup →
      ((chirpsGetTimeseries features).map (·.date)).Nodup) := by
  have hpw := era5_dates_pairwise fetch s (e - s + 1).toNat
  refine ⟨?_, era5Loop_map_date fetch s _, hpw, ?_, ?_, ?_, ?_⟩
  · rw [era5GetTimeseries, era5Loop_length]
    omega
  · have hne : List.Pairwise (fun a b : Era5Row => a.date ≠ b.date)
        (era5GetTimeseries fetch s e) := hpw.imp fun hab => ne_of_lt hab
    exact List.pairwise_map.mpr hne
  · simp [chirpsGetTimeseries]
  · exact List.sorted_insertionSort chirpsRowLe _
  · intro hnd
    have hperm : List.Perm (chirpsGetTimeseries features)
        (features.map chirpsProcessFeature) := List.perm_insertionSort _ _
    have hpermdates := hperm.map (fun r : ChirpsRow => r.date)
    have heq : (features.map chirpsProcessFeature).map (·.date) =
        features.map (·.1) := by
      rw [List.map_map]
      rfl
    rw [heq] at hpermdates
    exact hpermdates.nodup_iff.mpr hnd

/-- Witness for C2: a 3-day range yields 3 ERA5-Land rows; a 2-feature CHIRPS
response yields 2 rows. -/
theorem timeseries_entries_witness :
    ((era5GetTimeseries (fun _ => .empty) 0 2).length : ℤ) = 2 - 0 + 1 ∧
      (chirpsGetTimeseries [(0, some 1), (1, none)]).length = 2 :=
  ⟨(timeseries_entries (fun _ => .empty) 0 2 (by norm_num)
      [(0, some 1), (1, none)]).1,
    (timeseries_entries (fun _ => .empty) 0 2 (by norm_num)
      [(0, some 1), (1, none)]).2.2.2.2.1⟩

/-- C2 counterexample: over the two-day range `[day 0, day 1]` (span 2) the
backend's `filterDate` is end-exclusive, so a complete daily collection hands
CHIRPS exactly one feature (day 0) and `get_timeseries` emits 1 entry, not
span = 2 — while the ERA5-Land day loop over the same range emits 2; missing
backend days likewise shrink the CHIRPS row count, as nothing pads the list
to the calendar span. -/
theorem chirps_count_not_span :
    (chirpsGetTimeseries [(0, some 5)]).length = 1 ∧
      (era5GetTimeseries (fun _ => .empty) 0 1).length = 2 ∧ (1 : ℕ) ≠ 2 := by
  refine ⟨?_, ?_, by norm_num⟩
  · simp [chirpsGetTimeseries]
  · rw [era5GetTimeseries, era5Loop_length]
    rfl

theorem fsLookup_fsWrite (fs : FS) (p : Path) (c : Json) (t : ℤ) :
    fsLookup (fsWrite fs p c t) p = some (c, t) := by
  simp [fsLookup, fsWrite, List.find?]

theorem fsLookup_fsErase (fs : FS) (p : Path) :
    fsLookup (fsErase fs p) p = none := by
  unfold fsLookup fsErase
  induction fs with
  | nil => rfl
  | cons head tail ih =>
    by_cases hb : head.1 = p
    · simpa [List.filter_cons, hb] using ih
    · simpa [List.filter_cons, hb] using ih

/-- C4 (amended): for json format `set` writes a fresh artifact whose mtime
is the set time, so `get` before the TTL has elapsed since `set` returns the
identical JSON structure, and `get` after the TTL has elapsed returns absent
and deletes the artifact.  For csv/tiff, `shutil.copy2` stamps the cached
copy with the *source* file's mtime — the very quantity `get`'s TTL check
reads — so `get` returns the cache-file handle (content equal to the source)
exactly while the source's mtime is within the TTL of the read, and misses
(deleting the artifact) once that is exceeded, regardless of when `set` ran. -/
theorem cache_roundtrip (fs : FS) (params data : Json) (src : String)
    (cont : Json) (tsrc tset tget ttl : ℤ) :
    (cacheSet fs params data "json" tset).2 = some (Path.cache params "json") ∧
    (tget - tset ≤ ttl →
      (cacheGet (cacheSet fs params data "json" tset).1 params "json" tget ttl).2
        = some (.jsonData data)) ∧
    (ttl < tget - tset →
      (cacheGet (cacheSet fs params data "json" tset).1 params "json" tget ttl).2
          = none ∧
      fsLookup
        (cacheGet (cacheSet fs params data "json" tset).1 params "json" tget ttl).1
        (Path.cache params "json") = none) ∧
    (fsLookup fs (Path.external src) = some (cont, tsrc) →
      (cacheSet fs params (.str src) "tiff" tset).2
          = some (Path.cache params "tif") ∧
      fsLookup (cacheSet fs params (.str src) "tiff" tset).1
          (Path.cache params "tif") = some (cont, tsrc) ∧
      (tget - tsrc ≤ ttl →
        (cacheGet (cacheSet fs params (.str src) "tiff" tset).1 params "tiff"
            tget ttl).2 = some (.filePath (Path.cache params "tif"))) ∧
      (ttl < tget - tsrc →
        (cacheGet (cacheSet fs params (.str src) "tiff" tset).1 params "tiff"
            tget ttl).2 = none ∧
        fsLookup (cacheGet (cacheSet fs params (.str src) "tiff" tset).1
            params "tiff" tget ttl).1 (Path.cache params "tif") = none)) := by
  have hset : cacheSet fs params data "json" tset =
      (fsWrite fs (Path.cache params "json") data tset,
        some (Path.cache params "json")) := rfl
  refine ⟨rfl, ?_, ?_, ?_⟩
  · intro hfresh
    rw [hset]
    unfold cacheGet
    simp only [cacheExt, fsLookup_fsWrite]
    rw [if_neg (by omega)]
    simp
  · intro hstale
    rw [hset]
    unfold cacheGet
    simp only [cacheExt, fsLookup_fsWrite]
    rw [if_pos (by omega)]
    exact ⟨rfl, fsLookup_fsErase _ _⟩
  · intro hsrc
    have hsetb : cacheSet fs params (.str src) "tiff" tset =
        (fsWrite fs (Path.cache params "tif") cont tsrc,
          some (Path.cache params "tif")) := by
      unfold cacheSet
      simp only [cacheExt, hsrc]
      rw [if_neg (by decide)]
    refine ⟨by rw [hsetb], by rw [hsetb]; exact fsLookup_fsWrite _ _ _ _, ?_, ?_⟩
    · intro hfresh
      rw [hsetb]
      unfold cacheGet
      simp only [cacheExt, fsLookup_fsWrite]
      rw [if_neg (by omega)]
      rw [if_neg (by decide)]
    · intro hstale
      rw [hsetb]
      unfold cacheGet
      simp only [cacheExt, fsLookup_fsWrite]
      rw [if_pos (by omega)]
      exact ⟨rfl, fsLookup_fsErase _ _⟩

/-- Witness for C4: a concrete json round trip before and after expiry, and a
concrete binary copy (fresh source, mtime 0) read back within the TTL. -/
theorem cache_roundtrip_witness :
    (cacheGet (cacheSet [] .null (.str "v") "json" 0).1 .null "json" 10 24).2
      = some (.jsonData (.str "v")) ∧
    (cacheGet (cacheSet [] .null (.str "v") "json" 0).1 .null "json" 100 24).2
      = none ∧
    fsLookup (cacheSet [(Path.external "s", .str "bytes", 0)] .null (.str "s")
        "tiff" 0).1 (Path.cache .null "tif") = some (.str "bytes", 0) ∧
    (cacheGet (cacheSet [(Path.external "s", .str "bytes", 0)] .null (.str "s")
        "tiff" 0).1 .null "tiff" 10 24).2
      = some (.filePath (Path.cache .null "tif")) := by
  have hsrc : fsLookup [(Path.external "s", Json.str "bytes", (0 : ℤ))]
      (Path.external "s") = some (.str "bytes", 0) := by
    simp [fsLookup, List.find?]
  exact ⟨(cache_roundtrip [] .null (.str "v") "s" (.str "bytes") 0 0 10 24).2.1
      (by norm_num),
    ((cache_roundtrip [] .null (.str "v") "s" (.str "bytes") 0 0 100 24).2.2.1
      (by norm_num)).1,
    ((cache_roundtrip [(Path.external "s", .str "bytes", 0)] .null (.str "v")
      "s" (.str "bytes") 0 0 10 24).2.2.2 hsrc).2.1,
    (((cache_roundtrip [(Path.external "s", .str "bytes", 0)] .null (.str "v")
      "s" (.str "bytes") 0 0 10 24).2.2.2 hsrc).2.2.1 (by norm_num))⟩

/-- C4 counterexample: `shutil.copy2` stamps the cached tiff with the source
file's mtime, and `get`'s TTL check reads `cache_file.stat().st_mtime` — so
caching a tiff whose source file (mtime 0) is older than the TTL at time 100
and reading it back immediately (zero time elapsed since `set`, well within
the TTL) misses and deletes the just-written artifact, refuting the claimed
set-then-get-within-TTL round trip for binary formats. -/
theorem cache_binary_roundtrip_fails :
    (cacheSet [(Path.external "s", Json.str "bytes", 0)] .null (.str "s")
        "tiff" 100).2 = some (Path.cache .null "tif") ∧
    ((100 : ℤ) - 100 ≤ 24) ∧
    (cacheGet (cacheSet [(Path.external "s", Json.str "bytes", 0)] .null
        (.str "s") "tiff" 100).1 .null "tiff" 100 24).2 = none ∧
    fsLookup (cacheGet (cacheSet [(Path.external "s", Json.str "bytes", 0)]
        .null (.str "s") "tiff" 100).1 .null "tiff" 100 24).1
      (Path.cache .null "tif") = none := by
  have hsrc : fsLookup [(Path.external "s", Json.str "bytes", (0 : ℤ))]
      (Path.external "s") = some (.str "bytes", 0) := by
    simp [fsLookup, List.find?]
  have hsetb : cacheSet [(Path.external "s", Json.str "bytes", 0)] .null
      (.str "s") "tiff" 100 =
      (fsWrite [(Path.external "s", Json.str "bytes", 0)]
        (Path.cache .null "tif") (.str "bytes") 0,
        some (Path.cache .null "tif")) := by
    unfold cacheSet
    simp only [cacheExt, hsrc]
    rw [if_neg (by decide)]
  refine ⟨by rw [hsetb], by norm_num, ?_, ?_⟩
  · rw [hsetb]
    unfold cacheGet
    simp only [cacheExt, fsLookup_fsWrite]
    rw [if_pos (by norm_num)]
  · rw [hsetb]
    unfold cacheGet
    simp only [cacheExt, fsLookup_fsWrite]
    rw [if_pos (by norm_num)]
    exact fsLookup_fsErase _ _

theorem daysInRange_length (s e : ℤ) :
    (daysInRange s e).length = (e - s + 1).toNat := by
  rw [daysInRange, List.length_map, List.length_range]

/-- C6 (amended): CHIRPS and ERA5-Land exports truncate to 366 time steps in
multiband mode and 31 in zip mode; SMAP applies no multiband cap and rejects
zip requests over 31 days with an error rather than truncating; FLDAS applies
no multiband cap and truncates zip mode to 60 files, not 31. -/
theorem export_caps (images : List ℤ) (s e : ℤ) :
    (∀ r, chirpsExportGeotiff images "multiband" = .ok r →
      r.2.length = min 366 images.length) ∧
    (∀ r, chirpsExportGeotiff images "zip" = .ok r →
      r.2.length = min 31 images.length) ∧
    (∀ r, era5ExportGeotiff s e "multiband" = .ok r →
      r.2.length = min 366 (e - s + 1).toNat) ∧
    (∀ r, era5ExportGeotiff s e "zip" = .ok r →
      r.2.length = min 31 (e - s + 1).toNat) ∧
    (∀ r, smapExportGeotiff s e images "multiband" = .ok r → r.2 = images) ∧
    (31 < e - s + 1 → smapExportGeotiff s e images "zip" =
      .error "Zip export mode limited to 31 days maximum") ∧
    (e - s + 1 ≤ 31 → ∀ r, smapExportGeotiff s e images "zip" = .ok r →
      r.2 = images) ∧
    (∀ r, fldasExportGeotiff images "multiband" = .ok r → r.2 = images) ∧
    (∀ r, fldasExportGeotiff images "zip" = .ok r →
      r.2.length = min 60 images.length) := by
  refine ⟨?_, ?_, ?_, ?_, ?_, ?_, ?_, ?_, ?_⟩
  · intro r hr
    unfold chirpsExportGeotiff at hr
    split at hr
    · cases hr
    · rw [if_pos rfl] at hr
      injection hr with h
      rw [← h]
      simp [List.length_take]
  · intro r hr
    unfold chirpsExportGeotiff at hr
    split at hr
    · cases hr
    · rw [if_neg (by decide)] at hr
      injection hr with h
      rw [← h]
      simp [List.length_take]
  · intro r hr
    unfold era5ExportGeotiff at hr
    split at hr
    · cases hr
    · rw [if_pos rfl] at hr
      injection hr with h
      rw [← h]
      simp [List.length_take, daysInRange_length]
  · intro r hr
    unfold era5ExportGeotiff at hr
    split at hr
    · cases hr
    · rw [if_neg (by decide)] at hr
      injection hr with h
      rw [← h]
      simp only [List.length_take, daysInRange_length]
      omega
  · intro r hr
    unfold smapExportGeotiff at hr
    split at hr
    · cases hr
    · rw [if_pos rfl] at hr
      split at hr
      · cases hr
      · injection hr with h
        rw [← h]
  · intro hlong
    unfold smapExportGeotiff
    rw [if_pos ⟨rfl, hlong⟩]
  · intro hshort r hr
    unfold smapExportGeotiff at hr
    split at hr
    · cases hr
    · rw [if_neg (by decide)] at hr
      split at hr
      · cases hr
      · injection hr with h
        rw [← h]
  · intro r hr
    unfold fldasExportGeotiff at hr
    split at hr
    · cases hr
    · rw [if_pos rfl] at hr
      injection hr with h
      rw [← h]
  · intro r hr
    unfold fldasExportGeotiff at hr
    split at hr
    · cases hr
    · rw [if_neg (by decide)] at hr
      injection hr with h
      rw [← h]
      simp [List.length_take]

/-- Witness for C6: concrete small exports for each extractor and mode. -/
theorem export_caps_witness :
    (chirpsExportGeotiff [0, 1] "multiband").map (fun r => r.2.length)
      = .ok 2 ∧
    (smapExportGeotiff 0 1 [0, 1] "zip").map (fun r => r.2.length) = .ok 2 := by
  have h1 : chirpsExportGeotiff [0, 1] "multiband" = .ok ("multiband", [0, 1]) := by
    unfold chirpsExportGeotiff
    norm_num
  have h2 : smapExportGeotiff 0 1 [0, 1] "zip" = .ok ("zip", [0, 1]) := by
    unfold smapExportGeotiff
    norm_num
    exact fun h => h.symm
  constructor
  · have hlen := (export_caps [0, 1] 0 1).1 _ h1
    rw [h1]
    simp only [Except.map]
    rw [hlen]
    norm_num
  · have hlen := (export_caps [0, 1] 0 1).2.2.2.2.2.2.1 (by norm_num) _ h2
    rw [h2]
    simp only [Except.map, hlen]
    rfl

/-- C6 counterexample: a 400-image SMAP multiband export keeps all 400 bands
(no 366 cap); a 32-day SMAP zip export raises instead of truncating; a
40-image FLDAS zip export keeps all 40 files (cap 60, not 31). -/
theorem export_caps_cex :
    smapExportGeotiff 0 399 ((List.range 400).map (fun i : ℕ => (i : ℤ)))
        "multiband"
      = .ok ("multiband", (List.range 400).map (fun i : ℕ => (i : ℤ))) ∧
    366 < ((List.range 400).map (fun i : ℕ => (i : ℤ))).length ∧
    smapExportGeotiff 0 31 [0] "zip"
      = .error "Zip export mode limited to 31 days maximum" ∧
    fldasExportGeotiff ((List.range 40).map (fun i : ℕ => (i : ℤ))) "zip"
      = .ok ("zip", (List.range 40).map (fun i : ℕ => (i : ℤ))) ∧
    31 < ((List.range 40).map (fun i : ℕ => (i : ℤ))).length := by
  refine ⟨?_, by simp, ?_, ?_, by simp⟩
  · unfold smapExportGeotiff
    rw [if_neg (by simp)]
    rw [if_pos rfl]
    rw [if_neg (by simp)]
  · unfold smapExportGeotiff
    rw [if_pos ⟨rfl, by norm_num⟩]
  · unfold fldasExportGeotiff
    rw [if_neg (by simp), if_neg (by decide)]
    rw [List.take_of_length_le (by simp)]

end Datahub
